import Mathlib

/-!
Verification development for the kolbaskabot duty-roster bot.

The repository contains two revisions of the same Telegram bot:
`Kolbasa.py` (Excel upload, polling) and `main.py` (CSV upload, webhooks,
HTTP trigger endpoint).  This file gives a shallow embedding of the pure
logic of both revisions — the roster importers, the daily notifier, the
scheduler, the admin-gated command handlers and the HTTP trigger handler —
and proves or refutes the frozen specification claims about them.

Modelling conventions:
 * Python strings are Lean `String`; the handful of `str` methods used by
   the code (`strip`, `lower`, `split`, `isdigit`, `endswith`, substring
   `in`) are re-implemented here on `List Char` (`pyStrip`, `pyLower`,
   `pySplitChar`, ...).  `lower` is modelled on ASCII and Cyrillic
   letters — every alphabet the synonym tokens, headers and filenames of
   this code use.
 * `datetime.strptime` for the five fixed formats used by the code is
   modelled by strict format parsers that accept 1-2 digit day/month and
   1-4 digit year fields (as strptime does) and validate the resulting
   calendar date with `datetime`'s bounds (years 1..9999, real month
   lengths, leap years).
 * The sqlite tables are modelled as in-memory lists inside `SysState`:
   `duties` (insertion-ordered rows), `config` (key unique, `REPLACE`
   semantics) and `recipients` (duplicate-free, `INSERT OR IGNORE`).
 * pandas/csv input is modelled post-decoding as header list + row list;
   pandas never yields empty-string column names for Excel input (empty
   header cells become "Unnamed: n"), so columns are identified by index.
 * Message sending is modelled by a failure oracle `fails : Int → Bool`
   saying which chat ids raise on `send_message`; a handler returns its
   successor state, the replies to the invoking chat, and the fan-out
   sends that succeeded.
-/

namespace Kolbaska

/-! ## Characters, digits and Python string primitives -/

/-- Value of a decimal digit list, most significant first
(`int()` on an all-digit string). -/
def digitsVal (cs : List Char) : Nat :=
  cs.foldl (fun a c => a * 10 + (c.toNat - 48)) 0

/-- The character for a single decimal digit. -/
def digitChar (n : Nat) : Char := Char.ofNat (48 + n)

/-- Two-digit zero-padded decimal rendering (`%02d` for values < 100). -/
def pad2l (n : Nat) : List Char :=
  [digitChar (n / 10 % 10), digitChar (n % 10)]

/-- Four-digit zero-padded decimal rendering (`%04d` for values < 10000). -/
def pad4l (n : Nat) : List Char :=
  [digitChar (n / 1000 % 10), digitChar (n / 100 % 10),
   digitChar (n / 10 % 10), digitChar (n % 10)]

/-- Python `str.split(sep)` for a one-character separator: splits on every
occurrence, keeping empty pieces. -/
def pySplitChar (sep : Char) : List Char → List (List Char)
  | [] => [[]]
  | c :: rest =>
    match pySplitChar sep rest with
    | [] => [[]]
    | g :: gs => if c = sep then [] :: g :: gs else (c :: g) :: gs

/-- Python `str.strip()`: drop whitespace from both ends. -/
def pyStripL (cs : List Char) : List Char :=
  ((cs.dropWhile Char.isWhitespace).reverse.dropWhile Char.isWhitespace).reverse

/-- Python `str.strip()` on `String`. -/
def pyStrip (s : String) : String := ⟨pyStripL s.data⟩

/-- Python `str.lower()` on one character, modelled on the alphabets the
code's synonym tokens and headers use: ASCII letters and Cyrillic А-Я
and Ё. -/
def pyLowerChar (c : Char) : Char :=
  if 0x410 ≤ c.toNat ∧ c.toNat ≤ 0x42F then Char.ofNat (c.toNat + 0x20)
  else if c.toNat = 0x401 then Char.ofNat 0x451
  else c.toLower

/-- Python `str.lower()` on `String`. -/
def pyLower (s : String) : String := ⟨s.data.map pyLowerChar⟩

/-- Python `pat in s` substring membership. -/
def infixCheck (pat : List Char) : List Char → Bool
  | [] => pat.isEmpty
  | c :: rest => pat.isPrefixOf (c :: rest) || infixCheck pat rest

/-- `pat in hay` for `String`. -/
def strContains (hay pat : String) : Bool := infixCheck pat.data hay.data

/-- Python `str.endswith`. -/
def strEndsWith (s suf : String) : Bool := suf.data.isSuffixOf s.data

/-- Python `str.isdigit()` (ASCII digits; true only on nonempty strings). -/
def pyIsDigitStr (cs : List Char) : Bool := !cs.isEmpty && cs.all Char.isDigit

/-- `int()` applied to an all-digit string, `none` when it would raise
(modelled for unsigned decimal literals, which is all the code feeds it). -/
def pyIntOfChars (cs : List Char) : Option Nat :=
  if cs ≠ [] ∧ cs.all Char.isDigit = true then some (digitsVal cs) else none

/-! ## Calendar dates -/

/-- A calendar date as `datetime.date` stores it. -/
structure Date where
  year : Nat
  month : Nat
  day : Nat
deriving DecidableEq, Repr

/-- Gregorian leap-year test (`calendar.isleap`). -/
def isLeap (y : Nat) : Bool :=
  (y % 4 == 0 && y % 100 != 0) || y % 400 == 0

/-- Number of days in a month. -/
def daysInMonth (y m : Nat) : Nat :=
  if m = 2 then (if isLeap y then 29 else 28)
  else if m = 4 ∨ m = 6 ∨ m = 9 ∨ m = 11 then 30
  else 31

/-- The `datetime.date` constructor bounds: years 1..9999, real month
lengths.  `date(y, m, d)` raises exactly when this is false. -/
def validYMD (y m d : Nat) : Bool :=
  decide (1 ≤ y) && decide (y ≤ 9999) && decide (1 ≤ m) && decide (m ≤ 12) &&
  decide (1 ≤ d) && decide (d ≤ daysInMonth y m)

/-- `date.isoformat()`: `YYYY-MM-DD`. -/
def Date.iso (d : Date) : String :=
  ⟨pad4l d.year ++ '-' :: (pad2l d.month ++ '-' :: pad2l d.day)⟩

/-- `date.strftime("%d.%m.%Y")`: `DD.MM.YYYY`. -/
def Date.dmy (d : Date) : String :=
  ⟨pad2l d.day ++ '.' :: (pad2l d.month ++ '.' :: pad4l d.year)⟩

/-- The `DD/MM/YYYY` rendering of a date. -/
def Date.dmySlash (d : Date) : String :=
  ⟨pad2l d.day ++ '/' :: (pad2l d.month ++ '/' :: pad4l d.year)⟩

/-! ## Fixed-format date parsers (`datetime.strptime` for one format) -/

/-- A digit field of at most `maxLen` characters, as strptime scans one. -/
def fixedDigits (maxLen : Nat) (cs : List Char) : Option Nat :=
  if cs ≠ [] ∧ cs.length ≤ maxLen ∧ cs.all Char.isDigit = true
  then some (digitsVal cs) else none

/-- `strptime(s, "%Y-%m-%d")`. -/
def parseIsoL (cs : List Char) : Option Date :=
  match pySplitChar '-' cs with
  | [ys, ms, ds] =>
    match fixedDigits 4 ys, fixedDigits 2 ms, fixedDigits 2 ds with
    | some y, some m, some d =>
      if validYMD y m d then some ⟨y, m, d⟩ else none
    | _, _, _ => none
  | _ => none

/-- `strptime(s, fmt)` for a day-month-year format with separator `sep`. -/
def parseDMYL (sep : Char) (cs : List Char) : Option Date :=
  match pySplitChar sep cs with
  | [ds, ms, ys] =>
    match fixedDigits 2 ds, fixedDigits 2 ms, fixedDigits 4 ys with
    | some d, some m, some y =>
      if validYMD y m d then some ⟨y, m, d⟩ else none
    | _, _, _ => none
  | _ => none

/-- `strptime(s, "%d.%m.%y")`: two-digit year, 0-68 meaning 2000-2068 and
69-99 meaning 1969-1999. -/
def parseDotY2L (cs : List Char) : Option Date :=
  match pySplitChar '.' cs with
  | [ds, ms, ys] =>
    match fixedDigits 2 ds, fixedDigits 2 ms, fixedDigits 2 ys with
    | some d, some m, some yy =>
      let y := if yy ≤ 68 then 2000 + yy else 1900 + yy
      if validYMD y m d then some ⟨y, m, d⟩ else none
    | _, _, _ => none
  | _ => none

/-! ## Cells and duty records -/

/-- A spreadsheet cell as pandas hands it to `try_parse_date`: missing
(`NaN`), a string, or a native date/timestamp value. -/
inductive Cell where
  | empty : Cell
  | str : String → Cell
  | dateVal : Date → Cell
deriving DecidableEq, Repr

/-- `str(cell)` for a cell that passed the `isna` guard.  For a native
timestamp Python renders a longer `"YYYY-MM-DD 00:00:00"` form; only the
nonemptiness of that text matters to any claim, so the date part stands
for it. -/
def cellStr : Cell → String
  | Cell.empty => ""
  | Cell.str s => s
  | Cell.dateVal d => d.iso

/-- One row of the duties table: ISO date string and duty person name. -/
structure DutyRec where
  date : String
  name : String
deriving DecidableEq, Repr

/-! ## `Kolbasa.try_parse_date` -/

/-- The string cascade of `try_parse_date`, applied to the stripped text:
formats `%Y-%m-%d`, `%d.%m.%Y`, `%d.%m.%y`, `%d/%m/%Y`, `%d %m %Y` in
order, then the bare-integer branch `date(today.year, today.month, int(s))`. -/
def tryParseStr (cs : List Char) (today : Date) : Option Date :=
  match parseIsoL cs with
  | some d => some d
  | none =>
    match parseDMYL '.' cs with
    | some d => some d
    | none =>
      match parseDotY2L cs with
      | some d => some d
      | none =>
        match parseDMYL '/' cs with
        | some d => some d
        | none =>
          match parseDMYL ' ' cs with
          | some d => some d
          | none =>
            if pyIsDigitStr cs then
              let val := digitsVal cs
              if validYMD today.year today.month val
              then some ⟨today.year, today.month, val⟩ else none
            else none

/-- `Kolbasa.try_parse_date`: `None` on missing cells, native dates taken
directly, strings parsed through the format cascade. -/
def try_parse_date (c : Cell) (today : Date) : Option Date :=
  match c with
  | Cell.empty => none
  | Cell.dateVal d => some d
  | Cell.str raw => tryParseStr (pyStripL raw.data) today

/-! ## `Kolbasa.parse_excel` -/

/-- `DATE_HEADERS` of `Kolbasa.py`. -/
def dateHeaderTokens : List String := ["дата", "date", "day", "день"]

/-- `NAME_HEADERS` of `Kolbasa.py`. -/
def nameHeaderTokens : List String :=
  ["имя", "фио", "name", "дежурный", "дежурные", "person", "employee"]

/-- Does a lower-cased stripped Excel header contain a date synonym? -/
def excelDateMatch (h : String) : Bool :=
  dateHeaderTokens.any (fun t => strContains (pyStrip (pyLower h)) t)

/-- Does a lower-cased stripped Excel header contain a name synonym? -/
def excelNameMatch (h : String) : Bool :=
  nameHeaderTokens.any (fun t => strContains (pyStrip (pyLower h)) t)

/-- The header loop of `parse_excel`: walk the columns in order, a
matching column overwrites the previous match, and the loop breaks as
soon as both a date and a name column are set. -/
def excelDetectAux : List (Nat × String) → Option Nat → Option Nat →
    Option Nat × Option Nat
  | [], dc, nc => (dc, nc)
  | (i, h) :: rest, dc, nc =>
    let dc2 := if excelDateMatch h then some i else dc
    let nc2 := if excelNameMatch h then some i else nc
    if dc2.isSome && nc2.isSome then (dc2, nc2)
    else excelDetectAux rest dc2 nc2

/-- Column detection of `parse_excel` over the header row. -/
def excelDetect (headers : List String) : Option Nat × Option Nat :=
  excelDetectAux headers.enum none none

/-- One sheet of the uploaded workbook: header row plus data rows. -/
structure Sheet where
  headers : List String
  rows : List (List Cell)
deriving Repr

/-- `row.get(col)` on a pandas row: the cell at a column index, `NaN`
when absent. -/
def cellAt (row : List Cell) (i : Nat) : Cell := row.getD i Cell.empty

/-- `row[col]` on a `DictReader` row: the value at a column index, empty
(falsy, like the `None` of a short row) when absent. -/
def strAt (row : List String) (i : Nat) : String := row.getD i ""

/-- The name-cell handling of the `parse_excel` row loop: `NaN` and
whitespace-only cells are dropped, others stripped. -/
def excelName (c : Cell) : Option String :=
  match c with
  | Cell.empty => none
  | c =>
    let name := pyStrip (cellStr c)
    if name = "" then none else some name

/-- The row body of `parse_excel`: parse the date cell, require a name
column, drop `NaN` and whitespace-only names, emit the record. -/
def excelRow (dateIdx : Nat) (nameIdx : Option Nat) (today : Date)
    (row : List Cell) : Option DutyRec :=
  match try_parse_date (cellAt row dateIdx) today, nameIdx with
  | some d, some ni =>
    match excelName (cellAt row ni) with
    | some name => some ⟨d.iso, name⟩
    | none => none
  | _, _ => none

/-- `if not date_col: date_col = df.columns[0]` — the date column
`parse_excel` ends up using: the detected one, with positional fallback
to the first column. -/
def excelDateCol (headers : List String) : Nat :=
  (excelDetect headers).1.getD 0

/-- `if not name_col and len(df.columns) > 1: name_col = df.columns[1]` —
the name column `parse_excel` ends up using: the detected one, with
positional fallback to the second column when one exists. -/
def excelNameCol (headers : List String) : Option Nat :=
  match (excelDetect headers).2 with
  | some i => some i
  | none => if 1 < headers.length then some 1 else none

/-- The records `parse_excel` extracts from one sheet: empty sheets are
skipped, every row is read at the selected columns. -/
def excelSheetRecords (sh : Sheet) (today : Date) : List DutyRec :=
  if sh.headers.isEmpty || sh.rows.isEmpty then []
  else sh.rows.filterMap
    (excelRow (excelDateCol sh.headers) (excelNameCol sh.headers) today)

/-- `Kolbasa.parse_excel`: every sheet independently, in workbook order,
into one record list. -/
def parse_excel (wb : List Sheet) (today : Date) : List DutyRec :=
  (wb.map (fun sh => excelSheetRecords sh today)).flatten

/-! ## `main.parse_csv` -/

/-- The date words of `main.parse_csv` (note: no `"day"`). -/
def csvDateWords : List String := ["дата", "date", "день"]

/-- The name words of `main.parse_csv`. -/
def csvNameWords : List String := ["имя", "фио", "name", "дежурный"]

/-- Does a lower-cased CSV header contain a date synonym?  (`parse_csv`
does not strip headers.) -/
def csvDateMatch (h : String) : Bool :=
  csvDateWords.any (fun w => strContains (pyLower h) w)

/-- Does a lower-cased CSV header contain a name synonym? -/
def csvNameMatch (h : String) : Bool :=
  csvNameWords.any (fun w => strContains (pyLower h) w)

/-- One column of the per-row detection loop of `parse_csv`: date
synonyms tested first (`elif` for names), later matches overwrite. -/
def csvDetectStep (acc : Option Nat × Option Nat) (p : Nat × String) :
    Option Nat × Option Nat :=
  if csvDateMatch p.2 then (some p.1, acc.2)
  else if csvNameMatch p.2 then (acc.1, some p.1)
  else acc

/-- Per-row column detection of `parse_csv`: no positional fallback. -/
def csvDetect (headers : List String) : Option Nat × Option Nat :=
  headers.enum.foldl csvDetectStep (none, none)

/-- The date branch of `parse_csv`: choose the format by which separator
occurs in the stripped cell, else drop the row. -/
def csvParseDateL (cs : List Char) : Option Date :=
  if cs.contains '-' then parseIsoL cs
  else if cs.contains '.' then parseDMYL '.' cs
  else if cs.contains '/' then parseDMYL '/' cs
  else none

/-- `csvParseDateL` on a `String`. -/
def csvParseDateStr (s : String) : Option Date := csvParseDateL s.data

/-- The cell handling of one `parse_csv` row: both cell values must be
nonempty (Python truthiness); the name is stripped with no further check,
so a whitespace-only cell becomes an empty name. -/
def parseCsvCells (dv nv : String) : Option DutyRec :=
  if dv ≠ "" ∧ nv ≠ "" then
    match csvParseDateStr (pyStrip dv) with
    | some d => some ⟨d.iso, pyStrip nv⟩
    | none => none
  else none

/-- One `DictReader` row of `parse_csv`: both columns must be detected,
then the two cells are processed by `parseCsvCells`. -/
def parseCsvRow (headers : List String) (row : List String) : Option DutyRec :=
  match csvDetect headers with
  | (some di, some ni) => parseCsvCells (strAt row di) (strAt row ni)
  | _ => none

/-- A decoded CSV upload: the header line and the data rows
(the `csv.DictReader` view of the file). -/
structure CsvTable where
  headers : List String
  rows : List (List String)
deriving Repr

/-- `main.parse_csv`: fewer than two nonempty lines yield nothing, else
every data row goes through `parseCsvRow`. -/
def parse_csv (t : CsvTable) : List DutyRec :=
  if t.rows.length < 1 then [] else t.rows.filterMap (parseCsvRow t.headers)

/-! ## Persistent state and database helpers -/

/-- The persisted state of either revision: the three sqlite tables plus
the apscheduler job list (a job is its cron hour and minute). -/
structure SysState where
  duties : List DutyRec
  config : List (String × String)
  recipients : List Int
  jobs : List (Nat × Nat)
deriving DecidableEq, Repr

/-- `get_config`. -/
def get_config (cfg : List (String × String)) (k : String) : Option String :=
  (cfg.find? (fun p => p.1 == k)).map (fun p => p.2)

/-- `set_config` (`REPLACE INTO config`). -/
def set_config (cfg : List (String × String)) (k v : String) :
    List (String × String) :=
  (cfg.filter (fun p => !(p.1 == k))) ++ [(k, v)]

/-- `add_recipient` (`INSERT OR IGNORE`). -/
def add_recipient (recips : List Int) (chatId : Int) : List Int :=
  if recips.contains chatId then recips else recips ++ [chatId]

/-- `remove_recipient`. -/
def remove_recipient (recips : List Int) (chatId : Int) : List Int :=
  recips.filter (fun c => !(c == chatId))

/-- `get_duties_for_date`: names whose stored ISO date equals today's,
in insertion order. -/
def get_duties_for_date (duties : List DutyRec) (d : Date) : List String :=
  (duties.filter (fun r => r.date == d.iso)).map (fun r => r.name)

/-- `insert_duties` after `clear_duties` / `clear_all_duties`: the table
holds exactly the new records. -/
def replace_duties (st : SysState) (records : List DutyRec) : SysState :=
  { st with duties := ([] : List DutyRec) ++ records }

/-! ## The daily notifier of both revisions -/

/-- The outcome of one notification cycle: which chats were attempted,
which sends succeeded (with the delivered text), and the Python return
value of the function (`None` for `Kolbasa.send_today_message`, the
success count for `main.send_today_message`). -/
structure SendOutcome where
  attempts : List Int
  delivered : List (Int × String)
  retVal : Option Nat
deriving DecidableEq, Repr

/-- `sel.split('-')` into two `int()` fields, `None` when unpacking or
conversion raises. -/
def parseDashPair (s : String) : Option (Nat × Nat) :=
  match pySplitChar '-' s.data with
  | [a, b] =>
    match pyIntOfChars a, pyIntOfChars b with
    | some y, some m => some (y, m)
    | _, _ => none
  | _ => none

/-- The `selected_month` gate of `Kolbasa.send_today_message`: skip only
when the configured value is a truthy string that splits into two
integers which are both nonzero (Python truthiness of `y and m`) and
differ from today's year-month. -/
def kolbasaMonthSkip (cfg : List (String × String)) (today : Date) : Bool :=
  match get_config cfg ("selected_month") with
  | none => false
  | some s =>
    if s = "" then false
    else
      match parseDashPair s with
      | none => false
      | some (y, m) =>
        if y ≠ 0 ∧ m ≠ 0 then decide (today.year ≠ y ∨ today.month ≠ m)
        else false

/-- The message text of `Kolbasa.send_today_message`. -/
def kolbasaDutyText (today : Date) (names : List String) : String :=
  if names.isEmpty then "На " ++ today.iso ++ " дежурных не найдено."
  else "Дежурные на " ++ today.iso ++ ":\n" ++
    String.intercalate ("\n") (names.map (fun n => "- " ++ n))

/-- The message text of `main.send_today_message`. -/
def mainDutyText (today : Date) (names : List String) : String :=
  if names.isEmpty then "📅 На " ++ today.dmy ++ " дежурных не найдено."
  else "📅 Дежурные на " ++ today.dmy ++ ":\n" ++
    String.intercalate ("\n") (names.map (fun n => "• " ++ n))

/-- `Kolbasa.send_today_message`: month gate, roster lookup, fallback to
the admin list, one independent send per recipient (failures logged and
skipped), no return value. -/
def kolbasaSendToday (st : SysState) (admins : List Int) (today : Date)
    (fails : Int → Bool) : SendOutcome :=
  if kolbasaMonthSkip st.config today then
    { attempts := [], delivered := [], retVal := none }
  else
    let names := get_duties_for_date st.duties today
    let text := kolbasaDutyText today names
    let recips := if st.recipients.isEmpty then admins else st.recipients
    { attempts := recips,
      delivered := (recips.filter (fun c => !(fails c))).map (fun c => (c, text)),
      retVal := none }

/-- `main.send_today_message`: no month gate, roster lookup, fallback to
the admin list, one independent send per recipient, returns the count of
successful sends. -/
def mainSendToday (st : SysState) (admins : List Int) (today : Date)
    (fails : Int → Bool) : SendOutcome :=
  let names := get_duties_for_date st.duties today
  let text := mainDutyText today names
  let recips := if st.recipients.isEmpty then admins else st.recipients
  let ok := recips.filter (fun c => !(fails c))
  { attempts := recips,
    delivered := ok.map (fun c => (c, text)),
    retVal := some ok.length }

/-! ## `schedule_daily` (identical in both revisions) -/

/-- `[int(x) for x in t.split(':')]` unpacked into hour and minute. -/
def parseHHMM (s : String) : Option (Nat × Nat) :=
  match pySplitChar ':' s.data with
  | [a, b] =>
    match pyIntOfChars a, pyIntOfChars b with
    | some h, some m => some (h, m)
    | _, _ => none
  | _ => none

/-- `schedule_daily`: `remove_all_jobs` first, then parse the time, build
the cron trigger (which validates hour < 24 and minute < 60) and install
the single new job, recording the time in config.  When parsing or the
trigger constructor raises, the exception escapes after the jobs were
already cleared, so the scheduler is left empty and config untouched. -/
def schedule_daily (t : String) (st : SysState) : SysState × Bool :=
  let cleared := { st with jobs := ([] : List (Nat × Nat)) }
  match parseHHMM t with
  | none => (cleared, false)
  | some (h, m) =>
    if h < 24 ∧ m < 60 then
      ({ cleared with
           jobs := [(h, m)],
           config := set_config cleared.config ("send_time") t }, true)
    else (cleared, false)

/-! ## Command handlers

Each handler takes the caller's user id, the static admin allow-list, its
arguments and the current state, and returns the successor state, the
replies sent back to the invoking chat, and the fan-out messages that
were successfully delivered elsewhere.  Every admin-only handler performs
the allow-list membership test as its first statement. -/

/-- Result of one handler invocation. -/
structure OpResult where
  state : SysState
  replies : List String
  sends : List (Int × String)
deriving DecidableEq, Repr

/-- Refusal text of the `Kolbasa.py` admin-only commands. -/
def kolbasaCmdRefusal : String := "❌ Эта команда доступна только администраторам."

/-- Refusal text of the `Kolbasa.py` document handler. -/
def kolbasaUploadRefusal : String := "❌ Только администраторы могут загружать файлы."

/-- Refusal text of every `main.py` admin-only handler. -/
def tomato : String := "помидор"

/-- An unchanged state with a single reply. -/
def replyOnly (st : SysState) (r : String) : OpResult :=
  { state := st, replies := [r], sends := [] }

/-- `Kolbasa.cmd_subscribe`. -/
def kolbasaCmdSubscribe (caller : Int) (admins : List Int) (chatId : Int)
    (st : SysState) : OpResult :=
  if admins.contains caller then
    { state := { st with recipients := add_recipient st.recipients chatId },
      replies := ["✅ Этот чат добавлен в получатели рассылки."], sends := [] }
  else replyOnly st kolbasaCmdRefusal

/-- `Kolbasa.cmd_unsubscribe`. -/
def kolbasaCmdUnsubscribe (caller : Int) (admins : List Int) (chatId : Int)
    (st : SysState) : OpResult :=
  if admins.contains caller then
    { state := { st with recipients := remove_recipient st.recipients chatId },
      replies := ["✅ Этот чат удален из получателей рассылки."], sends := [] }
  else replyOnly st kolbasaCmdRefusal

/-- `Kolbasa.cmd_set_time`.  `args` are the whitespace-split words of the
message text. -/
def kolbasaCmdSetTime (caller : Int) (admins : List Int) (args : List String)
    (st : SysState) : OpResult :=
  if admins.contains caller then
    if args.length < 2 then replyOnly st ("Использование: /set_time HH:MM")
    else
      let t := pyStrip (args.getD 1 "")
      match parseHHMM t with
      | some (h, m) =>
        if h < 24 ∧ m < 60 then
          { state := (schedule_daily t st).1,
            replies := ["✅ Время отправки установлено на " ++ t], sends := [] }
        else replyOnly st ("❌ Неверный формат времени. Пример: /set_time 09:00")
      | none => replyOnly st ("❌ Неверный формат времени. Пример: /set_time 09:00")
  else replyOnly st kolbasaCmdRefusal

/-- `Kolbasa.cmd_send_today`. -/
def kolbasaCmdSendToday (caller : Int) (admins : List Int) (today : Date)
    (fails : Int → Bool) (st : SysState) : OpResult :=
  if admins.contains caller then
    let out := kolbasaSendToday st admins today fails
    { state := st, replies := ["✅ Рассылка отправлена всем получателям."],
      sends := out.delivered }
  else replyOnly st kolbasaCmdRefusal

/-- `%04d` for a natural number. -/
def fmt04 (y : Nat) : String := if y < 10000 then ⟨pad4l y⟩ else toString y

/-- `Kolbasa.cmd_set_month`. -/
def kolbasaCmdSetMonth (caller : Int) (admins : List Int) (args : List String)
    (st : SysState) : OpResult :=
  if admins.contains caller then
    if args.length < 2 then
      replyOnly st ("Использование: /set_month YYYY-MM (например 2024-02)")
    else
      match parseDashPair (args.getD 1 "") with
      | some (y, m) =>
        if 1 ≤ m ∧ m ≤ 12 then
          let v := fmt04 y ++ "-" ++ (⟨pad2l m⟩ : String)
          { state := { st with config := set_config st.config ("selected_month") v },
            replies := ["✅ Месяц рассылки установлен: " ++ v], sends := [] }
        else replyOnly st ("❌ Неверный формат месяца. Пример: /set_month 2024-02")
      | none => replyOnly st ("❌ Неверный формат месяца. Пример: /set_month 2024-02")
  else replyOnly st kolbasaCmdRefusal

/-- Byte-order comparison of ISO date strings (sqlite `ORDER BY` on TEXT). -/
def lexLe : List Char → List Char → Bool
  | [], _ => true
  | _ :: _, [] => false
  | a :: as, b :: bs =>
    if a.toNat < b.toNat then true
    else if b.toNat < a.toNat then false
    else lexLe as bs

/-- Stable insertion into a date-sorted list. -/
def insertByDate (r : DutyRec) : List DutyRec → List DutyRec
  | [] => [r]
  | x :: xs =>
    if lexLe x.date.data r.date.data then x :: insertByDate r xs
    else r :: x :: xs

/-- `SELECT duty_date, name FROM duties ORDER BY duty_date` (stable). -/
def sortByDate (l : List DutyRec) : List DutyRec :=
  l.foldl (fun acc r => insertByDate r acc) []

/-- The exported workbook of `Kolbasa.cmd_export`, rendered as one
reply string holding the ordered rows. -/
def exportReply (rs : List DutyRec) : String :=
  "duty_date,name\n" ++
    String.intercalate ("\n") (rs.map (fun r => r.date ++ "," ++ r.name))

/-- `Kolbasa.cmd_export`: reads the roster ordered by date and sends it
back as a document; no table is mutated. -/
def kolbasaCmdExport (caller : Int) (admins : List Int) (st : SysState) :
    OpResult :=
  if admins.contains caller then
    replyOnly st (exportReply (sortByDate st.duties))
  else replyOnly st kolbasaCmdRefusal

/-- `Kolbasa.handle_docs` file-extension test. -/
def kolbasaExtOk (fname : String) : Bool :=
  [".xls", ".xlsx", ".xlsm"].any (fun e => strEndsWith (pyLower fname) e)

/-- `Kolbasa.handle_docs`: admin gate, extension gate, parse, and on at
least one record a full replace of the duties table; on zero records a
distinct "nothing recognized" reply with no state change. -/
def kolbasaHandleDocs (caller : Int) (admins : List Int) (fname : String)
    (wb : List Sheet) (today : Date) (st : SysState) : OpResult :=
  if admins.contains caller then
    if kolbasaExtOk fname then
      let received := "📥 Файл получен, пытаюсь распарсить..."
      let records := parse_excel wb today
      if records.isEmpty then
        { state := st,
          replies := [received, "❌ Не удалось распознать записи в файле. Проверьте формат."],
          sends := [] }
      else
        { state := replace_duties st records,
          replies := [received, "✅ Импортировано записей: " ++ toString records.length],
          sends := [] }
    else replyOnly st ("❌ Пожалуйста, загрузите файл Excel (.xls/.xlsx/.xlsm).")
  else replyOnly st kolbasaUploadRefusal

/-- `main.py` subscribe button handler. -/
def mainCmdSubscribe (caller : Int) (admins : List Int) (chatId : Int)
    (st : SysState) : OpResult :=
  if admins.contains caller then
    if st.recipients.contains chatId then
      replyOnly st ("✅ Вы уже подписаны на рассылку!")
    else
      let sendTime := (get_config st.config ("send_time")).getD ("09:00")
      { state := { st with recipients := add_recipient st.recipients chatId },
        replies := ["✅ Вы успешно подписались на рассылку!\n\nЕжедневно в " ++
          sendTime ++ " вы будете получать список дежурных на текущий день."],
        sends := [] }
  else replyOnly st tomato

/-- `main.py` unsubscribe button handler. -/
def mainCmdUnsubscribe (caller : Int) (admins : List Int) (chatId : Int)
    (st : SysState) : OpResult :=
  if admins.contains caller then
    if !(st.recipients.contains chatId) then
      replyOnly st ("ℹ️ Вы не были подписаны на рассылку.")
    else
      { state := { st with recipients := remove_recipient st.recipients chatId },
        replies := ["❌ Вы отписались от рассылки дежурных."], sends := [] }
  else replyOnly st tomato

/-- `main.cmd_set_time`. -/
def mainCmdSetTime (caller : Int) (admins : List Int) (args : List String)
    (st : SysState) : OpResult :=
  if admins.contains caller then
    if args.length < 2 then
      replyOnly st ("Использование: /set_time HH:MM\nПример: /set_time 09:00")
    else
      let t := pyStrip (args.getD 1 "")
      match parseHHMM t with
      | some (h, m) =>
        if h < 24 ∧ m < 60 then
          { state := (schedule_daily t st).1,
            replies := ["✅ Время рассылки установлено: " ++ t], sends := [] }
        else
          replyOnly st ("❌ Неверный формат времени\nИспользуйте: HH:MM (например 09:00)")
      | none =>
        replyOnly st ("❌ Неверный формат времени\nИспользуйте: HH:MM (например 09:00)")
  else replyOnly st tomato

/-- `main.py` send-now button handler. -/
def mainCmdSendNow (caller : Int) (admins : List Int) (today : Date)
    (fails : Int → Bool) (st : SysState) : OpResult :=
  if admins.contains caller then
    let out := mainSendToday st admins today fails
    { state := st,
      replies := ["✅ Рассылка отправлена " ++ toString (out.retVal.getD 0) ++
        " получателям"],
      sends := out.delivered }
  else replyOnly st tomato

/-- `main.cmd_clear_duties`. -/
def mainCmdClearDuties (caller : Int) (admins : List Int) (st : SysState) :
    OpResult :=
  if admins.contains caller then
    { state := { st with duties := [] },
      replies := ["✅ Все записи о дежурных удалены."], sends := [] }
  else replyOnly st tomato

/-- The subscriber list text of `main.py`. -/
def subscribersText (recips : List Int) : String :=
  "📋 <b>Список подписчиков (" ++ toString recips.length ++ "):</b>\n\n" ++
    String.join (recips.map (fun c => "• ID: " ++ toString c ++ "\n"))

/-- `main.cmd_subscribers_command` (and the identical button handler). -/
def mainCmdSubscribers (caller : Int) (admins : List Int) (st : SysState) :
    OpResult :=
  if admins.contains caller then
    if st.recipients.isEmpty then
      replyOnly st ("📭 Нет подписчиков на рассылку.")
    else replyOnly st (subscribersText st.recipients)
  else replyOnly st tomato

/-- `main.handle_docs` file-extension test. -/
def mainExtOk (fname : String) : Bool :=
  [".csv", ".txt", ".xls", ".xlsx"].any (fun e => strEndsWith (pyLower fname) e)

/-- `main.handle_docs` zero-record reply. -/
def mainNotRecognized : String :=
  "❌ Не удалось распознать данные\n\nФормат CSV должен содержать колонки:\n- Дата (например: 01.02.2024 или 2024-02-01)\n- Имя (ФИО дежурного)"

/-- `main.handle_docs`: admin gate, extension gate, parse, full replace on
success or a distinct failure reply on zero records.  The success reply's
sample preview of the first imported rows is elided: no claim concerns
its content, only the import outcome and the state change. -/
def mainHandleDocs (caller : Int) (admins : List Int) (fname : String)
    (t : CsvTable) (st : SysState) : OpResult :=
  if admins.contains caller then
    if mainExtOk fname then
      let received := "📥 Файл получен, обработка..."
      let records := parse_csv t
      if records.isEmpty then
        { state := st, replies := [received, mainNotRecognized], sends := [] }
      else
        { state := replace_duties st records,
          replies := [received,
            "✅ Импортировано " ++ toString records.length ++ " записей"],
          sends := [] }
    else replyOnly st ("❌ Пожалуйста, загрузите CSV или текстовый файл")
  else replyOnly st tomato

/-! ## The HTTP trigger endpoint of `main.py` -/

/-- `main.handle_trigger`: compare the `X-Auth-Token` header against the
`CRON_TOKEN` environment value (or the hard-coded `default-secret` when
unset); on mismatch answer 401 without running anything, on match run one
notification cycle and answer 200 with the delivered count. -/
def handle_trigger (cronToken : Option String) (header : Option String)
    (st : SysState) (admins : List Int) (today : Date) (fails : Int → Bool) :
    Nat × String × Option SendOutcome :=
  let expected := cronToken.getD ("default-secret")
  if header = some expected then
    let out := mainSendToday st admins today fails
    (200, "✅ Рассылка отправлена " ++ toString (out.retVal.getD 0) ++
      " получателям", some out)
  else (401, "Unauthorized", none)

/-! ## Spec-side comparison definition and concrete fixtures -/

/-- Spec side of the positional-fallback sentence: extract every row of a
table reading the date from the first column and the name from the
second. -/
def specFirstSecond (rows : List (List Cell)) (today : Date) : List DutyRec :=
  rows.filterMap (excelRow 0 (some 1) today)

/-- A small populated state used by the concrete check theorems. -/
def exSt : SysState :=
  { duties := [⟨"2024-02-15", "Alice"⟩],
    config := [("send_time", "09:00")],
    recipients := [100],
    jobs := [(9, 0)] }

/-- A state whose config restricts notifications to 2024-01. -/
def exStMonth : SysState :=
  { duties := [⟨"2024-02-15", "Alice"⟩],
    config := [("selected_month", "2024-01")],
    recipients := [100],
    jobs := [] }

/-! ## Lemmas about digits, padded renderings, split and strip -/

theorem digitChar_toNat (k : Nat) (h : k < 10) : (digitChar k).toNat = 48 + k := by
  interval_cases k <;> decide

theorem digitChar_isDigit (k : Nat) (h : k < 10) : (digitChar k).isDigit = true := by
  interval_cases k <;> decide

theorem digitChar_not_ws (k : Nat) (h : k < 10) :
    (digitChar k).isWhitespace = false := by
  interval_cases k <;> decide

theorem pad2l_all_digit (n : Nat) : (pad2l n).all Char.isDigit = true := by
  have h1 := digitChar_isDigit (n / 10 % 10) (Nat.mod_lt _ (by omega))
  have h2 := digitChar_isDigit (n % 10) (Nat.mod_lt _ (by omega))
  simp [pad2l, h1, h2]

theorem pad4l_all_digit (n : Nat) : (pad4l n).all Char.isDigit = true := by
  have h1 := digitChar_isDigit (n / 1000 % 10) (Nat.mod_lt _ (by omega))
  have h2 := digitChar_isDigit (n / 100 % 10) (Nat.mod_lt _ (by omega))
  have h3 := digitChar_isDigit (n / 10 % 10) (Nat.mod_lt _ (by omega))
  have h4 := digitChar_isDigit (n % 10) (Nat.mod_lt _ (by omega))
  simp [pad4l, h1, h2, h3, h4]

theorem digit_of_mem_pad2l (n : Nat) (c : Char) (h : c ∈ pad2l n) :
    c.isDigit = true := by
  have := List.all_eq_true.mp (pad2l_all_digit n) c h
  simpa using this

theorem digit_of_mem_pad4l (n : Nat) (c : Char) (h : c ∈ pad4l n) :
    c.isDigit = true := by
  have := List.all_eq_true.mp (pad4l_all_digit n) c h
  simpa using this

theorem digitsVal_pad2l (n : Nat) (h : n < 100) : digitsVal (pad2l n) = n := by
  have h1 := digitChar_toNat (n / 10 % 10) (Nat.mod_lt _ (by omega))
  have h2 := digitChar_toNat (n % 10) (Nat.mod_lt _ (by omega))
  simp [digitsVal, pad2l, h1, h2]
  omega

theorem digitsVal_pad4l (n : Nat) (h : n < 10000) : digitsVal (pad4l n) = n := by
  have h1 := digitChar_toNat (n / 1000 % 10) (Nat.mod_lt _ (by omega))
  have h2 := digitChar_toNat (n / 100 % 10) (Nat.mod_lt _ (by omega))
  have h3 := digitChar_toNat (n / 10 % 10) (Nat.mod_lt _ (by omega))
  have h4 := digitChar_toNat (n % 10) (Nat.mod_lt _ (by omega))
  simp [digitsVal, pad4l, h1, h2, h3, h4]
  omega

theorem fixedDigits_pad2l (n : Nat) (h : n < 100) :
    fixedDigits 2 (pad2l n) = some n := by
  rw [fixedDigits, if_pos, digitsVal_pad2l n h]
  exact ⟨by simp [pad2l], by simp [pad2l], pad2l_all_digit n⟩

theorem fixedDigits_pad4l (n : Nat) (h : n < 10000) :
    fixedDigits 4 (pad4l n) = some n := by
  rw [fixedDigits, if_pos, digitsVal_pad4l n h]
  exact ⟨by simp [pad4l], by simp [pad4l], pad4l_all_digit n⟩

theorem notin_pad2l (n : Nat) (c : Char) (hc : c.isDigit = false) :
    c ∉ pad2l n := by
  intro h
  rw [digit_of_mem_pad2l n c h] at hc
  exact Bool.noConfusion hc

theorem notin_pad4l (n : Nat) (c : Char) (hc : c.isDigit = false) :
    c ∉ pad4l n := by
  intro h
  rw [digit_of_mem_pad4l n c h] at hc
  exact Bool.noConfusion hc

theorem pySplitChar_ne_nil (sep : Char) (cs : List Char) :
    pySplitChar sep cs ≠ [] := by
  cases cs with
  | nil => simp [pySplitChar]
  | cons c rest =>
    rw [pySplitChar]
    cases pySplitChar sep rest with
    | nil => simp
    | cons g gs => by_cases hc : c = sep <;> simp [hc]

theorem pySplitChar_no_sep (sep : Char) (cs : List Char) (h : sep ∉ cs) :
    pySplitChar sep cs = [cs] := by
  induction cs with
  | nil => rfl
  | cons c rest ih =>
    simp only [List.mem_cons, not_or] at h
    have hne : ¬c = sep := fun he => h.1 he.symm
    rw [pySplitChar, ih h.2]
    simp [hne]

theorem pySplitChar_append (sep : Char) (xs rest : List Char) (h : sep ∉ xs) :
    pySplitChar sep (xs ++ sep :: rest) = xs :: pySplitChar sep rest := by
  induction xs with
  | nil =>
    rw [List.nil_append, pySplitChar]
    cases hr : pySplitChar sep rest with
    | nil => exact absurd hr (pySplitChar_ne_nil sep rest)
    | cons g gs => simp
  | cons x xs ih =>
    simp only [List.mem_cons, not_or] at h
    have hne : ¬x = sep := fun he => h.1 he.symm
    rw [List.cons_append, pySplitChar, ih h.2]
    simp [hne]

theorem dropWhile_of_all_false {p : Char → Bool} (l : List Char)
    (h : ∀ c ∈ l, p c = false) : l.dropWhile p = l := by
  cases l with
  | nil => rfl
  | cons c rest =>
    rw [List.dropWhile_cons, h c (by simp)]
    simp

theorem pyStripL_id (cs : List Char) (h : ∀ c ∈ cs, c.isWhitespace = false) :
    pyStripL cs = cs := by
  unfold pyStripL
  rw [dropWhile_of_all_false cs h,
    dropWhile_of_all_false _ (fun c hc => h c (List.mem_reverse.mp hc)),
    List.reverse_reverse]

/-! ## Round trips of the format parsers on canonical renderings -/

/-- A character that is not a digit and differs from the separator does
not occur in a `DD sep MM sep YYYY` rendering. -/
theorem notin_dmyRender (c sep : Char) (hc : c.isDigit = false) (hne : c ≠ sep)
    (d m y : Nat) : c ∉ pad2l d ++ sep :: (pad2l m ++ sep :: pad4l y) := by
  intro h
  rcases List.mem_append.mp h with h1 | h1
  · exact notin_pad2l d c hc h1
  · rcases List.mem_cons.mp h1 with h2 | h2
    · exact hne h2
    · rcases List.mem_append.mp h2 with h3 | h3
      · exact notin_pad2l m c hc h3
      · rcases List.mem_cons.mp h3 with h4 | h4
        · exact hne h4
        · exact notin_pad4l y c hc h4

/-- A character that is not a digit and differs from the separator does
not occur in a `YYYY sep MM sep DD` rendering. -/
theorem notin_ymdRender (c sep : Char) (hc : c.isDigit = false) (hne : c ≠ sep)
    (y m d : Nat) : c ∉ pad4l y ++ sep :: (pad2l m ++ sep :: pad2l d) := by
  intro h
  rcases List.mem_append.mp h with h1 | h1
  · exact notin_pad4l y c hc h1
  · rcases List.mem_cons.mp h1 with h2 | h2
    · exact hne h2
    · rcases List.mem_append.mp h2 with h3 | h3
      · exact notin_pad2l m c hc h3
      · rcases List.mem_cons.mp h3 with h4 | h4
        · exact hne h4
        · exact notin_pad2l d c hc h4

/-- An ASCII digit character is not whitespace. -/
theorem digit_not_ws (c : Char) (h : c.isDigit = true) :
    c.isWhitespace = false := by
  simp only [Char.isWhitespace, Bool.or_eq_false_iff, decide_eq_false_iff_not]
  refine ⟨⟨⟨?_, ?_⟩, ?_⟩, ?_⟩ <;> rintro rfl <;> revert h <;> decide

/-- No character of a date rendering is whitespace (separator `'-'`,
`'.'` or `'/'`). -/
theorem dmyRender_no_ws (sep : Char) (hsep : sep.isWhitespace = false)
    (d m y : Nat) :
    ∀ c ∈ pad2l d ++ sep :: (pad2l m ++ sep :: pad4l y),
      c.isWhitespace = false := by
  intro c h
  rcases List.mem_append.mp h with h1 | h1
  · exact digit_not_ws c (digit_of_mem_pad2l d c h1)
  · rcases List.mem_cons.mp h1 with h2 | h2
    · rw [h2]; exact hsep
    · rcases List.mem_append.mp h2 with h3 | h3
      · exact digit_not_ws c (digit_of_mem_pad2l m c h3)
      · rcases List.mem_cons.mp h3 with h4 | h4
        · rw [h4]; exact hsep
        · exact digit_not_ws c (digit_of_mem_pad4l y c h4)

/-- The `YYYY sep MM sep DD` variant of `dmyRender_no_ws`. -/
theorem ymdRender_no_ws (sep : Char) (hsep : sep.isWhitespace = false)
    (y m d : Nat) :
    ∀ c ∈ pad4l y ++ sep :: (pad2l m ++ sep :: pad2l d),
      c.isWhitespace = false := by
  intro c h
  rcases List.mem_append.mp h with h1 | h1
  · exact digit_not_ws c (digit_of_mem_pad4l y c h1)
  · rcases List.mem_cons.mp h1 with h2 | h2
    · rw [h2]; exact hsep
    · rcases List.mem_append.mp h2 with h3 | h3
      · exact digit_not_ws c (digit_of_mem_pad2l m c h3)
      · rcases List.mem_cons.mp h3 with h4 | h4
        · rw [h4]; exact hsep
        · exact digit_not_ws c (digit_of_mem_pad2l d c h4)

theorem validYMD_true (y m d : Nat) (hy1 : 1 ≤ y) (hy : y ≤ 9999)
    (hm1 : 1 ≤ m) (hm : m ≤ 12) (hd1 : 1 ≤ d) (hd : d ≤ daysInMonth y m) :
    validYMD y m d = true := by
  unfold validYMD
  rw [decide_eq_true hy1, decide_eq_true hy, decide_eq_true hm1,
    decide_eq_true hm, decide_eq_true hd1, decide_eq_true hd]
  rfl

theorem daysInMonth_le (y m : Nat) : daysInMonth y m ≤ 31 := by
  unfold daysInMonth
  split
  · split <;> omega
  · split <;> omega

theorem parseIsoL_render (y m d : Nat) (hy1 : 1 ≤ y) (hy : y ≤ 9999)
    (hm1 : 1 ≤ m) (hm : m ≤ 12) (hd1 : 1 ≤ d) (hd : d ≤ daysInMonth y m) :
    parseIsoL (pad4l y ++ '-' :: (pad2l m ++ '-' :: pad2l d)) = some ⟨y, m, d⟩ := by
  have h4 : ('-' : Char) ∉ pad4l y := notin_pad4l y '-' (by decide)
  have h2m : ('-' : Char) ∉ pad2l m := notin_pad2l m '-' (by decide)
  have h2d : ('-' : Char) ∉ pad2l d := notin_pad2l d '-' (by decide)
  have hdlt : d < 100 := by have := daysInMonth_le y m; omega
  unfold parseIsoL
  rw [pySplitChar_append '-' (pad4l y) (pad2l m ++ '-' :: pad2l d) h4,
    pySplitChar_append '-' (pad2l m) (pad2l d) h2m,
    pySplitChar_no_sep '-' (pad2l d) h2d]
  simp [fixedDigits_pad4l y (by omega), fixedDigits_pad2l m (by omega),
    fixedDigits_pad2l d hdlt, validYMD_true y m d hy1 hy hm1 hm hd1 hd]

theorem parseDMYL_render (sep : Char) (hsep : sep.isDigit = false)
    (y m d : Nat) (hy1 : 1 ≤ y) (hy : y ≤ 9999) (hm1 : 1 ≤ m) (hm : m ≤ 12)
    (hd1 : 1 ≤ d) (hd : d ≤ daysInMonth y m) :
    parseDMYL sep (pad2l d ++ sep :: (pad2l m ++ sep :: pad4l y)) =
      some ⟨y, m, d⟩ := by
  have h4 : sep ∉ pad4l y := notin_pad4l y sep hsep
  have h2m : sep ∉ pad2l m := notin_pad2l m sep hsep
  have h2d : sep ∉ pad2l d := notin_pad2l d sep hsep
  have hdlt : d < 100 := by have := daysInMonth_le y m; omega
  unfold parseDMYL
  rw [pySplitChar_append sep (pad2l d) (pad2l m ++ sep :: pad4l y) h2d,
    pySplitChar_append sep (pad2l m) (pad4l y) h2m,
    pySplitChar_no_sep sep (pad4l y) h4]
  simp [fixedDigits_pad4l y (by omega), fixedDigits_pad2l m (by omega),
    fixedDigits_pad2l d hdlt, validYMD_true y m d hy1 hy hm1 hm hd1 hd]

theorem parseIsoL_none (cs : List Char) (h : '-' ∉ cs) : parseIsoL cs = none := by
  unfold parseIsoL
  rw [pySplitChar_no_sep '-' cs h]

theorem parseDMYL_none (sep : Char) (cs : List Char) (h : sep ∉ cs) :
    parseDMYL sep cs = none := by
  unfold parseDMYL
  rw [pySplitChar_no_sep sep cs h]

theorem parseDotY2L_none (cs : List Char) (h : '.' ∉ cs) :
    parseDotY2L cs = none := by
  unfold parseDotY2L
  rw [pySplitChar_no_sep '.' cs h]

/-- The format cascade on the canonical `YYYY-MM-DD` rendering. -/
theorem tryParseStr_iso (today : Date) (y m d : Nat) (hy1 : 1 ≤ y)
    (hy : y ≤ 9999) (hm1 : 1 ≤ m) (hm : m ≤ 12) (hd1 : 1 ≤ d)
    (hd : d ≤ daysInMonth y m) :
    tryParseStr (pad4l y ++ '-' :: (pad2l m ++ '-' :: pad2l d)) today =
      some ⟨y, m, d⟩ := by
  unfold tryParseStr
  rw [parseIsoL_render y m d hy1 hy hm1 hm hd1 hd]

/-- The format cascade on the canonical `DD.MM.YYYY` rendering. -/
theorem tryParseStr_dot (today : Date) (y m d : Nat) (hy1 : 1 ≤ y)
    (hy : y ≤ 9999) (hm1 : 1 ≤ m) (hm : m ≤ 12) (hd1 : 1 ≤ d)
    (hd : d ≤ daysInMonth y m) :
    tryParseStr (pad2l d ++ '.' :: (pad2l m ++ '.' :: pad4l y)) today =
      some ⟨y, m, d⟩ := by
  unfold tryParseStr
  rw [parseIsoL_none _ (notin_dmyRender '-' '.' (by decide) (by decide) d m y),
    parseDMYL_render '.' (by decide) y m d hy1 hy hm1 hm hd1 hd]

/-- The format cascade on the canonical `DD/MM/YYYY` rendering. -/
theorem tryParseStr_slash (today : Date) (y m d : Nat) (hy1 : 1 ≤ y)
    (hy : y ≤ 9999) (hm1 : 1 ≤ m) (hm : m ≤ 12) (hd1 : 1 ≤ d)
    (hd : d ≤ daysInMonth y m) :
    tryParseStr (pad2l d ++ '/' :: (pad2l m ++ '/' :: pad4l y)) today =
      some ⟨y, m, d⟩ := by
  unfold tryParseStr
  rw [parseIsoL_none _ (notin_dmyRender '-' '/' (by decide) (by decide) d m y),
    parseDMYL_none '.' _ (notin_dmyRender '.' '/' (by decide) (by decide) d m y),
    parseDotY2L_none _ (notin_dmyRender '.' '/' (by decide) (by decide) d m y),
    parseDMYL_render '/' (by decide) y m d hy1 hy hm1 hm hd1 hd]

/-- `try_parse_date` on the canonical `YYYY-MM-DD` rendering. -/
theorem try_parse_date_iso (today : Date) (y m d : Nat) (hy1 : 1 ≤ y)
    (hy : y ≤ 9999) (hm1 : 1 ≤ m) (hm : m ≤ 12) (hd1 : 1 ≤ d)
    (hd : d ≤ daysInMonth y m) :
    try_parse_date (Cell.str (Date.iso ⟨y, m, d⟩)) today = some ⟨y, m, d⟩ := by
  show tryParseStr (pyStripL (pad4l y ++ '-' :: (pad2l m ++ '-' :: pad2l d)))
    today = _
  rw [pyStripL_id _ (ymdRender_no_ws '-' (by decide) y m d)]
  exact tryParseStr_iso today y m d hy1 hy hm1 hm hd1 hd

/-- `try_parse_date` on the canonical `DD.MM.YYYY` rendering. -/
theorem try_parse_date_dot (today : Date) (y m d : Nat) (hy1 : 1 ≤ y)
    (hy : y ≤ 9999) (hm1 : 1 ≤ m) (hm : m ≤ 12) (hd1 : 1 ≤ d)
    (hd : d ≤ daysInMonth y m) :
    try_parse_date (Cell.str (Date.dmy ⟨y, m, d⟩)) today = some ⟨y, m, d⟩ := by
  show tryParseStr (pyStripL (pad2l d ++ '.' :: (pad2l m ++ '.' :: pad4l y)))
    today = _
  rw [pyStripL_id _ (dmyRender_no_ws '.' (by decide) d m y)]
  exact tryParseStr_dot today y m d hy1 hy hm1 hm hd1 hd

/-- `try_parse_date` on the canonical `DD/MM/YYYY` rendering. -/
theorem try_parse_date_slash (today : Date) (y m d : Nat) (hy1 : 1 ≤ y)
    (hy : y ≤ 9999) (hm1 : 1 ≤ m) (hm : m ≤ 12) (hd1 : 1 ≤ d)
    (hd : d ≤ daysInMonth y m) :
    try_parse_date (Cell.str (Date.dmySlash ⟨y, m, d⟩)) today = some ⟨y, m, d⟩ := by
  show tryParseStr (pyStripL (pad2l d ++ '/' :: (pad2l m ++ '/' :: pad4l y)))
    today = _
  rw [pyStripL_id _ (dmyRender_no_ws '/' (by decide) d m y)]
  exact tryParseStr_slash today y m d hy1 hy hm1 hm hd1 hd

/-- `parse_csv`'s date branch on the canonical `YYYY-MM-DD` rendering. -/
theorem csvParseDateStr_iso (y m d : Nat) (hy1 : 1 ≤ y) (hy : y ≤ 9999)
    (hm1 : 1 ≤ m) (hm : m ≤ 12) (hd1 : 1 ≤ d) (hd : d ≤ daysInMonth y m) :
    csvParseDateStr (Date.iso ⟨y, m, d⟩) = some ⟨y, m, d⟩ := by
  have hmem : ('-' : Char) ∈ pad4l y ++ '-' :: (pad2l m ++ '-' :: pad2l d) :=
    List.mem_append_right _ (List.mem_cons_self _ _)
  show csvParseDateL (pad4l y ++ '-' :: (pad2l m ++ '-' :: pad2l d)) = _
  unfold csvParseDateL
  simp [hmem, parseIsoL_render y m d hy1 hy hm1 hm hd1 hd]

/-- `parse_csv`'s date branch on the canonical `DD.MM.YYYY` rendering. -/
theorem csvParseDateStr_dot (y m d : Nat) (hy1 : 1 ≤ y) (hy : y ≤ 9999)
    (hm1 : 1 ≤ m) (hm : m ≤ 12) (hd1 : 1 ≤ d) (hd : d ≤ daysInMonth y m) :
    csvParseDateStr (Date.dmy ⟨y, m, d⟩) = some ⟨y, m, d⟩ := by
  have hnd : ('-' : Char) ∉ pad2l d ++ '.' :: (pad2l m ++ '.' :: pad4l y) :=
    notin_dmyRender '-' '.' (by decide) (by decide) d m y
  have hdot : ('.' : Char) ∈ pad2l d ++ '.' :: (pad2l m ++ '.' :: pad4l y) :=
    List.mem_append_right _ (List.mem_cons_self _ _)
  show csvParseDateL (pad2l d ++ '.' :: (pad2l m ++ '.' :: pad4l y)) = _
  unfold csvParseDateL
  simp [hnd, hdot, parseDMYL_render '.' (by decide) y m d hy1 hy hm1 hm hd1 hd]

/-- `parse_csv`'s date branch on the canonical `DD/MM/YYYY` rendering. -/
theorem csvParseDateStr_slash (y m d : Nat) (hy1 : 1 ≤ y) (hy : y ≤ 9999)
    (hm1 : 1 ≤ m) (hm : m ≤ 12) (hd1 : 1 ≤ d) (hd : d ≤ daysInMonth y m) :
    csvParseDateStr (Date.dmySlash ⟨y, m, d⟩) = some ⟨y, m, d⟩ := by
  have hnd : ('-' : Char) ∉ pad2l d ++ '/' :: (pad2l m ++ '/' :: pad4l y) :=
    notin_dmyRender '-' '/' (by decide) (by decide) d m y
  have hndot : ('.' : Char) ∉ pad2l d ++ '/' :: (pad2l m ++ '/' :: pad4l y) :=
    notin_dmyRender '.' '/' (by decide) (by decide) d m y
  have hsl : ('/' : Char) ∈ pad2l d ++ '/' :: (pad2l m ++ '/' :: pad4l y) :=
    List.mem_append_right _ (List.mem_cons_self _ _)
  show csvParseDateL (pad2l d ++ '/' :: (pad2l m ++ '/' :: pad4l y)) = _
  unfold csvParseDateL
  simp [hnd, hndot, hsl,
    parseDMYL_render '/' (by decide) y m d hy1 hy hm1 hm hd1 hd]

/-! ## Lemmas about the importers -/

theorem notin_of_all_digit (cs : List Char) (hdig : cs.all Char.isDigit = true)
    (c : Char) (hc : c.isDigit = false) : c ∉ cs := by
  intro h
  have := List.all_eq_true.mp hdig c h
  rw [hc] at this
  exact Bool.noConfusion this

/-- `excelName` only produces nonempty names. -/
theorem excelName_some (c : Cell) (s : String) (h : excelName c = some s) :
    s ≠ "" := by
  cases c with
  | empty => simp [excelName] at h
  | str t =>
    by_cases he : pyStrip (cellStr (Cell.str t)) = ""
    · simp [excelName, he] at h
    · simp [excelName, he] at h
      rw [← h]
      exact he
  | dateVal d =>
    by_cases he : pyStrip (cellStr (Cell.dateVal d)) = ""
    · simp [excelName, he] at h
    · simp [excelName, he] at h
      rw [← h]
      exact he

/-- `excelName` drops missing cells and cells stripping to empty. -/
theorem excelName_none (c : Cell)
    (h : c = Cell.empty ∨ pyStrip (cellStr c) = "") : excelName c = none := by
  rcases h with h | h
  · rw [h]; rfl
  · cases c with
    | empty => rfl
    | str t => simp [excelName, h]
    | dateVal d => simp [excelName, h]

/-- A row never yields a record when no name column was determined. -/
theorem excelRow_no_name (di : Nat) (today : Date) (row : List Cell) :
    excelRow di none today row = none := by
  unfold excelRow
  cases try_parse_date (cellAt row di) today <;> rfl

/-- Any record produced by `excelRow` has a nonempty (stripped) name. -/
theorem excelRow_some_name (di : Nat) (ni : Option Nat) (today : Date)
    (row : List Cell) (r : DutyRec) (h : excelRow di ni today row = some r) :
    r.name ≠ "" := by
  unfold excelRow at h
  cases hparse : try_parse_date (cellAt row di) today with
  | none => simp [hparse] at h
  | some d =>
    simp only [hparse] at h
    cases ni with
    | none => simp at h
    | some i =>
      cases hname : excelName (cellAt row i) with
      | none => simp [hname] at h
      | some name =>
        simp only [hname, Option.some.injEq] at h
        rw [← h]
        exact excelName_some _ _ hname

/-- A row is dropped when its name cell is missing or strips to empty. -/
theorem excelRow_empty_name (di ni : Nat) (today : Date) (row : List Cell)
    (h : cellAt row ni = Cell.empty ∨
      pyStrip (cellStr (cellAt row ni)) = "") :
    excelRow di (some ni) today row = none := by
  unfold excelRow
  cases hparse : try_parse_date (cellAt row di) today with
  | none => rfl
  | some d => simp [hparse, excelName_none _ h]

/-- The detection loop of `parse_excel` never sets a date column when no
header matches a date synonym, whatever happens with name columns (it
can never break early, since the date slot stays unset). -/
theorem excelDetectAux_fst_none (l : List (Nat × String)) (nc : Option Nat)
    (hd : ∀ p ∈ l, excelDateMatch p.2 = false) :
    (excelDetectAux l none nc).1 = none := by
  induction l generalizing nc with
  | nil => rfl
  | cons p rest ih =>
    obtain ⟨i, h⟩ := p
    have h1 := hd (i, h) (List.mem_cons_self _ _)
    simp only at h1
    unfold excelDetectAux
    simp only [h1, Bool.false_eq_true, if_false, Option.isSome_none,
      Bool.false_and]
    exact ih _ (fun q hq => hd q (List.mem_cons_of_mem _ hq))

/-- The detection loop of `parse_excel` never sets a name column when no
header matches a name synonym, whatever happens with date columns. -/
theorem excelDetectAux_snd_none (l : List (Nat × String)) (dc : Option Nat)
    (hn : ∀ p ∈ l, excelNameMatch p.2 = false) :
    (excelDetectAux l dc none).2 = none := by
  induction l generalizing dc with
  | nil => rfl
  | cons p rest ih =>
    obtain ⟨i, h⟩ := p
    have h1 := hn (i, h) (List.mem_cons_self _ _)
    simp only at h1
    unfold excelDetectAux
    simp only [h1, Bool.false_eq_true, if_false, Option.isSome_none,
      Bool.and_false]
    exact ih _ (fun q hq => hn q (List.mem_cons_of_mem _ hq))

/-- With no date-synonym header, `parse_excel` uses the first column as
the date column, independently of any name-column match. -/
theorem excelDateCol_fallback (headers : List String)
    (hd : ∀ h ∈ headers, excelDateMatch h = false) :
    excelDateCol headers = 0 := by
  unfold excelDateCol excelDetect
  rw [excelDetectAux_fst_none headers.enum none
    (fun p hp => hd p.2 (List.snd_mem_of_mem_enum hp))]
  rfl

/-- With no name-synonym header, `parse_excel` uses the second column as
the name column exactly when one exists, independently of any
date-column match. -/
theorem excelNameCol_fallback (headers : List String)
    (hn : ∀ h ∈ headers, excelNameMatch h = false) :
    excelNameCol headers = (if 1 < headers.length then some 1 else none) := by
  unfold excelNameCol excelDetect
  rw [excelDetectAux_snd_none headers.enum none
    (fun p hp => hn p.2 (List.snd_mem_of_mem_enum hp))]

/-- The length guard of `parse_csv` is invisible on the table model: the
output is always the row-wise extraction. -/
theorem parse_csv_eq (t : CsvTable) :
    parse_csv t = t.rows.filterMap (parseCsvRow t.headers) := by
  unfold parse_csv
  split
  · have hz : t.rows.length = 0 := by omega
    rw [List.length_eq_zero.mp hz]
    rfl
  · rfl

/-- The per-row detection of `parse_csv` finds no date column when no
header matches a date synonym. -/
theorem csvDetect_fst_none (headers : List String)
    (h : ∀ hd ∈ headers, csvDateMatch hd = false) :
    (csvDetect headers).1 = none := by
  have key : ∀ (l : List (Nat × String)) (acc : Option Nat × Option Nat),
      (∀ p ∈ l, csvDateMatch p.2 = false) →
      (l.foldl csvDetectStep acc).1 = acc.1 := by
    intro l
    induction l with
    | nil => intro acc _; rfl
    | cons p rest ih =>
      intro acc hl
      have h1 := hl p (List.mem_cons_self _ _)
      rw [List.foldl_cons]
      rw [ih _ (fun q hq => hl q (List.mem_cons_of_mem _ hq))]
      unfold csvDetectStep
      rw [h1]
      by_cases h2 : csvNameMatch p.2 <;> simp [h2]
  exact key headers.enum (none, none)
    (fun p hp => h p.2 (List.snd_mem_of_mem_enum hp))

/-- A CSV row yields nothing when no date column was detected. -/
theorem parseCsvRow_no_date (headers : List String) (row : List String)
    (h : (csvDetect headers).1 = none) : parseCsvRow headers row = none := by
  unfold parseCsvRow
  cases hcd : csvDetect headers with
  | mk a b =>
    rw [hcd] at h
    simp only at h
    subst h
    cases b <;> rfl

/-- `parseCsvCells` yields nothing when the name cell is empty. -/
theorem parseCsvCells_empty_name (dv nv : String) (hnv : nv = "") :
    parseCsvCells dv nv = none := by
  unfold parseCsvCells
  rw [if_neg (fun hc => hc.2 hnv)]

/-- A CSV row yields nothing when its name cell is the empty string. -/
theorem parseCsvRow_empty_name (headers : List String) (row : List String)
    (di ni : Nat) (hcd : csvDetect headers = (some di, some ni))
    (hnv : strAt row ni = "") : parseCsvRow headers row = none := by
  unfold parseCsvRow
  rw [hcd]
  exact parseCsvCells_empty_name _ _ hnv

/-! ## The claims -/

/-- Claim C1: for every upload whose parse yields at least one record,
the document handler fully replaces the roster — afterwards the duties
table holds exactly the parsed records and nothing else, with config and
recipients untouched; for a parse yielding zero records it reports the
"nothing recognized" outcome and leaves the whole state unchanged.
Proved for both revisions' document handlers. -/
theorem C1_import_replaces_roster (caller : Int) (admins : List Int)
    (st st2 : SysState) (fname fname2 : String) (wb : List Sheet)
    (today : Date) (t : CsvTable)
    (hadm : admins.contains caller = true)
    (hext : kolbasaExtOk fname = true) (hext2 : mainExtOk fname2 = true) :
    (parse_excel wb today ≠ [] →
      (kolbasaHandleDocs caller admins fname wb today st).state =
        { st with duties := parse_excel wb today }) ∧
    (parse_excel wb today = [] →
      (kolbasaHandleDocs caller admins fname wb today st).state = st ∧
      (kolbasaHandleDocs caller admins fname wb today st).replies =
        ["📥 Файл получен, пытаюсь распарсить...",
          "❌ Не удалось распознать записи в файле. Проверьте формат."]) ∧
    (parse_csv t ≠ [] →
      (mainHandleDocs caller admins fname2 t st2).state =
        { st2 with duties := parse_csv t }) ∧
    (parse_csv t = [] →
      (mainHandleDocs caller admins fname2 t st2).state = st2 ∧
      (mainHandleDocs caller admins fname2 t st2).replies =
        ["📥 Файл получен, обработка...", mainNotRecognized]) := by
  have hmem : caller ∈ admins := by simpa using hadm
  refine ⟨fun hne => ?_, fun heq => ?_, fun hne => ?_, fun heq => ?_⟩
  · simp [kolbasaHandleDocs, hmem, hext, hne, replace_duties]
  · simp [kolbasaHandleDocs, hmem, hext, heq]
  · simp [mainHandleDocs, hmem, hext2, hne, replace_duties]
  · simp [mainHandleDocs, hmem, hext2, heq]

/-- Claim C1 witness at a concrete upload. -/
theorem C1_import_replaces_roster_witness :
    (kolbasaHandleDocs 1 [1] ("a.xlsx")
      [⟨["date", "name"], [[Cell.str ("2024-02-01"), Cell.str ("Bob")]]⟩]
      ⟨2024, 1, 1⟩ exSt).state =
      { exSt with
          duties := parse_excel
            [⟨["date", "name"], [[Cell.str ("2024-02-01"), Cell.str ("Bob")]]⟩]
            ⟨2024, 1, 1⟩ } :=
  (C1_import_replaces_roster 1 [1] exSt exSt ("a.xlsx") ("b.csv")
      [⟨["date", "name"], [[Cell.str ("2024-02-01"), Cell.str ("Bob")]]⟩]
      ⟨2024, 1, 1⟩ ⟨[], []⟩ (by decide) (by decide) (by decide)).1
    (by decide)

/-- Claim C2 counterexample: `main.send_today_message` performs no
`selected_month` check at all.  With `selected_month` set to 2024-01 and
today 2024-02-15 it still attempts its recipient, delivers, and reports
one delivery, refuting the claim for the `main.py` notifier. -/
theorem C2_refuted :
    get_config exStMonth.config ("selected_month") = some ("2024-01") ∧
    (mainSendToday exStMonth [1] ⟨2024, 2, 15⟩ (fun _ => false)).attempts =
      [100] ∧
    (mainSendToday exStMonth [1] ⟨2024, 2, 15⟩ (fun _ => false)).retVal =
      some 1 :=
  ⟨rfl, rfl, rfl⟩

/-- Claim C2 as amended: the `Kolbasa.py` notifier skips entirely — no
attempt, no delivery, no returned count — whenever the configured
`selected_month` splits into two integers that are both nonzero and
differ from today's year-month; the `main.py` notifier applies no month
filter at all (its outcome ignores the config table entirely). -/
theorem C2_month_filter (st : SysState) (admins : List Int) (today : Date)
    (fails : Int → Bool) (s : String) (y m : Nat)
    (cfg2 : List (String × String))
    (hs : get_config st.config ("selected_month") = some s)
    (hp : parseDashPair s = some (y, m)) (hy : y ≠ 0) (hm : m ≠ 0)
    (hne : today.year ≠ y ∨ today.month ≠ m) :
    kolbasaSendToday st admins today fails =
      { attempts := [], delivered := [], retVal := none } ∧
    mainSendToday { st with config := cfg2 } admins today fails =
      mainSendToday st admins today fails := by
  have hsne : s ≠ "" := by
    intro he
    rw [he] at hp
    exact Option.noConfusion hp
  have hskip : kolbasaMonthSkip st.config today = true := by
    unfold kolbasaMonthSkip
    simp only [hs]
    rw [if_neg hsne]
    simp only [hp]
    rw [if_pos ⟨hy, hm⟩]
    exact decide_eq_true hne
  constructor
  · unfold kolbasaSendToday
    rw [hskip]
    rfl
  · rfl

/-- Claim C2 witness for the amended Kolbasa gate at a concrete state. -/
theorem C2_month_filter_witness :
    kolbasaSendToday exStMonth [1] ⟨2024, 2, 15⟩ (fun _ => false) =
      { attempts := [], delivered := [], retVal := none } :=
  (C2_month_filter exStMonth [1] ⟨2024, 2, 15⟩ (fun _ => false) ("2024-01")
    2024 1 [] (by decide) (by decide) (by decide) (by decide)
    (Or.inr (by decide))).1

/-- Claim C3 counterexample: the refusal response is not uniform across
the administrator-only operations — within `Kolbasa.py` the same
non-administrator caller receives one text from the command handlers and
a different text from the document handler. -/
theorem C3_refuted :
    (kolbasaCmdSubscribe 999 [1] 50 exSt).replies = [kolbasaCmdRefusal] ∧
    (kolbasaHandleDocs 999 [1] ("roster.xlsx") [] ⟨2024, 1, 1⟩ exSt).replies =
      [kolbasaUploadRefusal] ∧
    kolbasaCmdRefusal ≠ kolbasaUploadRefusal :=
  ⟨rfl, rfl, by decide⟩

/-- Claim C3 as amended: every administrator-only operation of both
revisions, invoked by a caller outside the allow-list, performs the
allow-list check first, changes no state, sends nothing, and returns
exactly one refusal reply; the refusal text is `помидор` uniformly across
`main.py` and uniform across the `Kolbasa.py` commands, but the
`Kolbasa.py` document handler uses a distinct refusal text. -/
theorem C3_admin_gate (caller : Int) (admins : List Int) (st : SysState)
    (chatId : Int) (args : List String) (today : Date) (fails : Int → Bool)
    (fname : String) (wb : List Sheet) (t : CsvTable)
    (hnadm : admins.contains caller = false) :
    kolbasaCmdSubscribe caller admins chatId st =
      replyOnly st kolbasaCmdRefusal ∧
    kolbasaCmdUnsubscribe caller admins chatId st =
      replyOnly st kolbasaCmdRefusal ∧
    kolbasaCmdSetTime caller admins args st = replyOnly st kolbasaCmdRefusal ∧
    kolbasaCmdSendToday caller admins today fails st =
      replyOnly st kolbasaCmdRefusal ∧
    kolbasaCmdSetMonth caller admins args st = replyOnly st kolbasaCmdRefusal ∧
    kolbasaCmdExport caller admins st = replyOnly st kolbasaCmdRefusal ∧
    kolbasaHandleDocs caller admins fname wb today st =
      replyOnly st kolbasaUploadRefusal ∧
    mainCmdSubscribe caller admins chatId st = replyOnly st tomato ∧
    mainCmdUnsubscribe caller admins chatId st = replyOnly st tomato ∧
    mainCmdSetTime caller admins args st = replyOnly st tomato ∧
    mainCmdSendNow caller admins today fails st = replyOnly st tomato ∧
    mainCmdClearDuties caller admins st = replyOnly st tomato ∧
    mainCmdSubscribers caller admins st = replyOnly st tomato ∧
    mainHandleDocs caller admins fname t st = replyOnly st tomato := by
  have hmem : caller ∉ admins := by simpa using hnadm
  unfold kolbasaCmdSubscribe kolbasaCmdUnsubscribe kolbasaCmdSetTime
    kolbasaCmdSendToday kolbasaCmdSetMonth kolbasaCmdExport kolbasaHandleDocs
    mainCmdSubscribe mainCmdUnsubscribe mainCmdSetTime mainCmdSendNow
    mainCmdClearDuties mainCmdSubscribers mainHandleDocs
  simp [hmem]

/-- Claim C3 witness at a concrete non-administrator caller. -/
theorem C3_admin_gate_witness :
    kolbasaCmdSubscribe 999 [1] 50 exSt = replyOnly exSt kolbasaCmdRefusal :=
  (C3_admin_gate 999 [1] exSt 50 [] ⟨2024, 1, 1⟩ (fun _ => false)
    ("a.xlsx") [] ⟨[], []⟩ (by decide)).1

/-- Claim C4 counterexample: `Kolbasa.send_today_message` completes a
cycle with one successful delivery yet returns no value (`None`), so the
operation does not return the count of successful deliveries. -/
theorem C4_refuted :
    (kolbasaSendToday exSt [1] ⟨2024, 2, 15⟩ (fun _ => false)).delivered.length
      = 1 ∧
    (kolbasaSendToday exSt [1] ⟨2024, 2, 15⟩ (fun _ => false)).retVal =
      none :=
  ⟨rfl, rfl⟩

/-- Claim C4 as amended: in every non-skipped cycle both notifiers
address the registered recipients when non-empty and the administrator
list otherwise, and deliver to each non-failing recipient independently
of other recipients' failures; `main.send_today_message` returns the
count of successful deliveries, while `Kolbasa.send_today_message`
returns no value. -/
theorem C4_fanout_independent (st : SysState) (admins : List Int)
    (today : Date) (fails : Int → Bool) :
    (mainSendToday st admins today fails).attempts =
      (if st.recipients.isEmpty then admins else st.recipients) ∧
    (∀ c, c ∈ (mainSendToday st admins today fails).attempts →
      fails c = false →
      (c, mainDutyText today (get_duties_for_date st.duties today)) ∈
        (mainSendToday st admins today fails).delivered) ∧
    (mainSendToday st admins today fails).retVal =
      some (mainSendToday st admins today fails).delivered.length ∧
    (kolbasaMonthSkip st.config today = false →
      (kolbasaSendToday st admins today fails).attempts =
        (if st.recipients.isEmpty then admins else st.recipients) ∧
      (∀ c, c ∈ (kolbasaSendToday st admins today fails).attempts →
        fails c = false →
        (c, kolbasaDutyText today (get_duties_for_date st.duties today)) ∈
          (kolbasaSendToday st admins today fails).delivered)) ∧
    (kolbasaSendToday st admins today fails).retVal = none := by
  refine ⟨rfl, ?_, ?_, fun hskip => ⟨?_, ?_⟩, ?_⟩
  · intro c hc hf
    unfold mainSendToday at hc ⊢
    simp only at hc ⊢
    exact List.mem_map_of_mem _ (List.mem_filter.mpr ⟨hc, by simp [hf]⟩)
  · unfold mainSendToday
    simp
  · unfold kolbasaSendToday
    rw [hskip]
    rfl
  · intro c hc hf
    unfold kolbasaSendToday at hc ⊢
    rw [hskip] at hc ⊢
    simp only at hc ⊢
    exact List.mem_map_of_mem _ (List.mem_filter.mpr ⟨hc, by simp [hf]⟩)
  · by_cases hsk : kolbasaMonthSkip st.config today <;>
      simp [kolbasaSendToday, hsk]

/-- Claim C4 witness at a concrete cycle. -/
theorem C4_fanout_independent_witness :
    (mainSendToday exSt [1] ⟨2024, 2, 15⟩ (fun _ => false)).retVal =
      some (mainSendToday exSt [1] ⟨2024, 2, 15⟩
        (fun _ => false)).delivered.length :=
  (C4_fanout_independent exSt [1] ⟨2024, 2, 15⟩ (fun _ => false)).2.2.1

/-- Claim C5 counterexample: `main.parse_csv` has no positional
fallback — a two-column table whose headers match no synonym yields zero
records, although the claimed first/second-column fallback would have
extracted one record (as `Kolbasa.parse_excel` indeed does on the same
table). -/
theorem C5_refuted :
    parse_csv ⟨["a", "b"], [["2024-02-01", "Alice"]]⟩ = [] ∧
    parse_excel [⟨["a", "b"], [[Cell.str ("2024-02-01"), Cell.str ("Alice")]]⟩]
      ⟨2024, 1, 1⟩ = [⟨"2024-02-01", "Alice"⟩] :=
  ⟨by decide, by decide⟩

/-- Claim C5 as amended: the positional fallbacks belong to
`Kolbasa.parse_excel` only, and they are independent — whenever no header
matches a date synonym the importer uses the first column positionally as
the date column (whatever the name detection found), whenever no header
matches a name synonym it uses the second column positionally as the name
column exactly when a second column exists (whatever the date detection
found), and a single-column table with no matched name column yields zero
records; `main.parse_csv` applies no positional fallback and yields zero
records from any table whose headers contain no date-synonym token. -/
theorem C5_column_fallback (headers : List String) (rows : List (List Cell))
    (today : Date) (t : CsvTable) :
    ((∀ h ∈ headers, excelDateMatch h = false) → excelDateCol headers = 0) ∧
    ((∀ h ∈ headers, excelNameMatch h = false) → 2 ≤ headers.length →
      excelNameCol headers = some 1) ∧
    ((∀ h ∈ headers, excelNameMatch h = false) → headers.length = 1 →
      parse_excel [⟨headers, rows⟩] today = []) ∧
    ((∀ h ∈ headers, excelDateMatch h = false) →
      (∀ h ∈ headers, excelNameMatch h = false) → 2 ≤ headers.length →
      parse_excel [⟨headers, rows⟩] today = specFirstSecond rows today) ∧
    ((∀ h ∈ t.headers, csvDateMatch h = false) → parse_csv t = []) := by
  refine ⟨fun hd => excelDateCol_fallback headers hd,
    fun hn hlen => ?_, fun hn hlen => ?_, fun hd hn hlen => ?_, fun hcsv => ?_⟩
  · rw [excelNameCol_fallback headers hn]
    simp [show 1 < headers.length by omega]
  · have hnc : excelNameCol headers = none := by
      rw [excelNameCol_fallback headers hn]
      simp [hlen]
    simp only [parse_excel, List.map_cons, List.map_nil, List.flatten_cons,
      List.flatten_nil, List.append_nil, excelSheetRecords, hnc]
    split
    · rfl
    · simp [excelRow_no_name, List.filterMap_eq_nil_iff]
  · have hdc := excelDateCol_fallback headers hd
    have hnc : excelNameCol headers = some 1 := by
      rw [excelNameCol_fallback headers hn]
      simp [show 1 < headers.length by omega]
    have hne : headers ≠ [] := by intro he; rw [he] at hlen; simp at hlen
    simp only [parse_excel, List.map_cons, List.map_nil, List.flatten_cons,
      List.flatten_nil, List.append_nil, excelSheetRecords, hdc, hnc]
    by_cases hrows : rows = []
    · subst hrows
      simp [specFirstSecond]
    · simp [hne, hrows, specFirstSecond]
  · rw [parse_csv_eq t, List.filterMap_eq_nil_iff]
    intro row _
    exact parseCsvRow_no_date t.headers row (csvDetect_fst_none t.headers hcsv)

/-- Claim C5 witness at a concrete synonym-free table. -/
theorem C5_column_fallback_witness :
    parse_excel [⟨["a", "b"],
        [[Cell.str ("2024-02-01"), Cell.str ("Alice")]]⟩] ⟨2024, 1, 1⟩ =
      specFirstSecond [[Cell.str ("2024-02-01"), Cell.str ("Alice")]]
        ⟨2024, 1, 1⟩ :=
  (C5_column_fallback ["a", "b"]
      [[Cell.str ("2024-02-01"), Cell.str ("Alice")]] ⟨2024, 1, 1⟩
      ⟨["x"], [["1", "2"]]⟩).2.2.2.1 (by decide) (by decide) (by decide)

/-- Claim C6: for every calendar date, the per-row date parsers of both
revisions return that same date on each of the accepted renderings
`DD.MM.YYYY`, `YYYY-MM-DD` and `DD/MM/YYYY` — format invariance. -/
theorem C6_format_invariance (today : Date) (y m d : Nat)
    (hy1 : 1 ≤ y) (hy : y ≤ 9999) (hm1 : 1 ≤ m) (hm : m ≤ 12)
    (hd1 : 1 ≤ d) (hd : d ≤ daysInMonth y m) :
    try_parse_date (Cell.str (Date.iso ⟨y, m, d⟩)) today = some ⟨y, m, d⟩ ∧
    try_parse_date (Cell.str (Date.dmy ⟨y, m, d⟩)) today = some ⟨y, m, d⟩ ∧
    try_parse_date (Cell.str (Date.dmySlash ⟨y, m, d⟩)) today =
      some ⟨y, m, d⟩ ∧
    csvParseDateStr (Date.iso ⟨y, m, d⟩) = some ⟨y, m, d⟩ ∧
    csvParseDateStr (Date.dmy ⟨y, m, d⟩) = some ⟨y, m, d⟩ ∧
    csvParseDateStr (Date.dmySlash ⟨y, m, d⟩) = some ⟨y, m, d⟩ :=
  ⟨try_parse_date_iso today y m d hy1 hy hm1 hm hd1 hd,
    try_parse_date_dot today y m d hy1 hy hm1 hm hd1 hd,
    try_parse_date_slash today y m d hy1 hy hm1 hm hd1 hd,
    csvParseDateStr_iso y m d hy1 hy hm1 hm hd1 hd,
    csvParseDateStr_dot y m d hy1 hy hm1 hm hd1 hd,
    csvParseDateStr_slash y m d hy1 hy hm1 hm hd1 hd⟩

/-- Claim C6 witness at the leap day 2024-02-29. -/
theorem C6_format_invariance_witness :
    try_parse_date (Cell.str (Date.iso ⟨2024, 2, 29⟩)) ⟨2024, 1, 1⟩ =
      some ⟨2024, 2, 29⟩ ∧
    try_parse_date (Cell.str (Date.dmy ⟨2024, 2, 29⟩)) ⟨2024, 1, 1⟩ =
      some ⟨2024, 2, 29⟩ ∧
    try_parse_date (Cell.str (Date.dmySlash ⟨2024, 2, 29⟩)) ⟨2024, 1, 1⟩ =
      some ⟨2024, 2, 29⟩ ∧
    csvParseDateStr (Date.iso ⟨2024, 2, 29⟩) = some ⟨2024, 2, 29⟩ ∧
    csvParseDateStr (Date.dmy ⟨2024, 2, 29⟩) = some ⟨2024, 2, 29⟩ ∧
    csvParseDateStr (Date.dmySlash ⟨2024, 2, 29⟩) = some ⟨2024, 2, 29⟩ :=
  C6_format_invariance ⟨2024, 1, 1⟩ 2024 2 29 (by decide) (by decide)
    (by decide) (by decide) (by decide) (by decide)

/-- Claim C7 counterexample: `main.parse_csv` drops a row whose date cell
is the bare integer `15` (no separator matches, so the row is skipped),
although the claim requires it to be interpreted as a day of the current
month — as `Kolbasa.try_parse_date` indeed does. -/
theorem C7_refuted :
    parse_csv ⟨["date", "name"], [["15", "Alice"]]⟩ = [] ∧
    try_parse_date (Cell.str ("15")) ⟨2024, 2, 1⟩ = some ⟨2024, 2, 15⟩ :=
  ⟨by decide, by decide⟩

/-- Claim C7 as amended: the bare-integer interpretation belongs to
`Kolbasa.try_parse_date` only — an all-digit date cell becomes the day
of today's year and month when that date exists and is dropped
otherwise; `main.parse_csv`'s date branch drops every bare-integer cell. -/
theorem C7_bare_day (today : Date) (ds : List Char) (hne : ds ≠ [])
    (hdig : ds.all Char.isDigit = true) :
    try_parse_date (Cell.str ⟨ds⟩) today =
      (if validYMD today.year today.month (digitsVal ds) = true
       then some ⟨today.year, today.month, digitsVal ds⟩ else none) ∧
    csvParseDateStr ⟨ds⟩ = none := by
  have hstrip : pyStripL ds = ds :=
    pyStripL_id ds (fun c hc => digit_not_ws c (List.all_eq_true.mp hdig c hc))
  have hnd : ('-' : Char) ∉ ds := notin_of_all_digit ds hdig '-' (by decide)
  have hndot : ('.' : Char) ∉ ds := notin_of_all_digit ds hdig '.' (by decide)
  have hnsl : ('/' : Char) ∉ ds := notin_of_all_digit ds hdig '/' (by decide)
  have hnsp : (' ' : Char) ∉ ds := notin_of_all_digit ds hdig ' ' (by decide)
  constructor
  · show tryParseStr (pyStripL ds) today = _
    rw [hstrip]
    unfold tryParseStr
    rw [parseIsoL_none ds hnd, parseDMYL_none '.' ds hndot,
      parseDotY2L_none ds hndot, parseDMYL_none '/' ds hnsl,
      parseDMYL_none ' ' ds hnsp]
    have hpd : pyIsDigitStr ds = true := by
      unfold pyIsDigitStr
      rw [hdig]
      simp [hne]
    simp [hpd]
  · show csvParseDateL ds = none
    unfold csvParseDateL
    simp [hnd, hndot, hnsl]

/-- Claim C7 witness at the bare integer 15 with today 2024-02-01. -/
theorem C7_bare_day_witness :
    try_parse_date (Cell.str ⟨("15").data⟩) ⟨2024, 2, 1⟩ =
      (if validYMD 2024 2 (digitsVal ("15").data) = true
       then some ⟨2024, 2, digitsVal ("15").data⟩ else none) ∧
    csvParseDateStr ⟨("15").data⟩ = none :=
  C7_bare_day ⟨2024, 2, 1⟩ ("15").data (by decide) (by decide)

/-- Claim C8 counterexample: `main.parse_csv` keeps a row whose name cell
is whitespace-only (it is truthy before stripping) and emits a record
with an empty name. -/
theorem C8_refuted :
    parse_csv ⟨["date", "name"], [["2024-02-01", " "]]⟩ =
      [⟨"2024-02-01", ""⟩] := by decide

/-- Claim C8 as amended: `Kolbasa.parse_excel` drops every row whose name
cell is missing or strips to empty, none of its records has an empty
name, and a dropped row is dropped in isolation — the remaining rows of
the same table produce exactly the records they produce without it;
`main.parse_csv` likewise drops rows whose name cell is the empty string
in isolation, keeping all other rows, but it keeps a whitespace-only
name cell as a record with an empty name. -/
theorem C8_empty_names (wb : List Sheet) (today : Date)
    (headers row : List String) (rows1 rows2 : List (List String))
    (di ni : Nat) (dIdx nIdx : Nat) (cellRow : List Cell)
    (cellRows1 cellRows2 : List (List Cell))
    (hdet : csvDetect headers = (some di, some ni)) :
    (∀ r ∈ parse_excel wb today, r.name ≠ "") ∧
    ((cellAt cellRow nIdx = Cell.empty ∨
        pyStrip (cellStr (cellAt cellRow nIdx)) = "") →
      excelRow dIdx (some nIdx) today cellRow = none) ∧
    ((cellAt cellRow nIdx = Cell.empty ∨
        pyStrip (cellStr (cellAt cellRow nIdx)) = "") →
      (cellRows1 ++ cellRow :: cellRows2).filterMap
          (excelRow dIdx (some nIdx) today) =
        cellRows1.filterMap (excelRow dIdx (some nIdx) today) ++
          cellRows2.filterMap (excelRow dIdx (some nIdx) today)) ∧
    (strAt row ni = "" → parseCsvRow headers row = none) ∧
    (strAt row ni = "" →
      parse_csv ⟨headers, rows1 ++ row :: rows2⟩ =
        parse_csv ⟨headers, rows1⟩ ++ parse_csv ⟨headers, rows2⟩) := by
  refine ⟨?_, fun h => excelRow_empty_name _ _ _ _ h, fun h => ?_,
    fun h => parseCsvRow_empty_name _ _ _ _ hdet h, fun h => ?_⟩
  · intro r hr
    unfold parse_excel at hr
    obtain ⟨l, hl, hrl⟩ := List.mem_flatten.mp hr
    obtain ⟨sh, hsh, rfl⟩ := List.mem_map.mp hl
    unfold excelSheetRecords at hrl
    split at hrl
    · simp at hrl
    · obtain ⟨row0, hrw, hsome⟩ := List.mem_filterMap.mp hrl
      exact excelRow_some_name _ _ _ _ _ hsome
  · rw [List.filterMap_append, List.filterMap_cons,
      excelRow_empty_name dIdx nIdx today cellRow h]
  · rw [parse_csv_eq, parse_csv_eq, parse_csv_eq]
    rw [List.filterMap_append, List.filterMap_cons,
      parseCsvRow_empty_name headers row di ni hdet h]

/-- Claim C8 witness: a whitespace-only Excel name cell drops the row
and leaves the surrounding rows' records untouched. -/
theorem C8_empty_names_witness :
    (([] : List (List Cell)) ++
        [Cell.str ("2024-02-01"), Cell.str ("  ")] ::
          [[Cell.str ("2024-02-02"), Cell.str ("Bob")]]).filterMap
        (excelRow 0 (some 1) ⟨2024, 1, 1⟩) =
      (([] : List (List Cell)).filterMap (excelRow 0 (some 1) ⟨2024, 1, 1⟩) ++
        [[Cell.str ("2024-02-02"), Cell.str ("Bob")]].filterMap
          (excelRow 0 (some 1) ⟨2024, 1, 1⟩)) :=
  (C8_empty_names [] ⟨2024, 1, 1⟩ ["date", "name"] ["2024-02-01", ""] [] []
      0 1 0 1 [Cell.str ("2024-02-01"), Cell.str ("  ")] []
      [[Cell.str ("2024-02-02"), Cell.str ("Bob")]]
      (by decide)).2.2.1 (Or.inr (by decide))

/-- Claim C9: `schedule_daily` clears every scheduled job before
installing the new one, so after any sequence of calls ending in a call
with a valid `HH:MM` the scheduler holds exactly one armed firing — the
one for the most recently set time.  (Applying the theorem to each
prefix of a call sequence gives the property after every call.) -/
theorem C9_reschedule_single (init : SysState) (ts : List String) (t : String)
    (h mnt : Nat) (hparse : parseHHMM t = some (h, mnt)) (hh : h < 24)
    (hm : mnt < 60) :
    ((ts ++ [t]).foldl (fun st s => (schedule_daily s st).1) init).jobs =
      [(h, mnt)] ∧
    ((ts ++ [t]).foldl (fun st s => (schedule_daily s st).1) init).jobs.length
      = 1 := by
  have key : ∀ st : SysState, (schedule_daily t st).1.jobs = [(h, mnt)] := by
    intro st
    unfold schedule_daily
    simp only [hparse]
    rw [if_pos ⟨hh, hm⟩]
  constructor
  · rw [List.foldl_append]
    simp only [List.foldl_cons, List.foldl_nil]
    exact key _
  · rw [List.foldl_append]
    simp only [List.foldl_cons, List.foldl_nil]
    rw [key _]
    rfl

/-- Claim C9 witness: re-arming 09:00 then 10:30 leaves one 10:30 job. -/
theorem C9_reschedule_single_witness :
    ((["09:00"] ++ ["10:30"]).foldl (fun st s => (schedule_daily s st).1)
      exSt).jobs = [(10, 30)] :=
  (C9_reschedule_single exSt ["09:00"] ("10:30") 10 30 (by decide)
    (by decide) (by decide)).1

/-- Claim C10: `POST /trigger` answers 401 exactly when the
`X-Auth-Token` header differs from the configured token — the
`CRON_TOKEN` environment value when set, the hard-coded
`default-secret` otherwise (so an unset `CRON_TOKEN` leaves the endpoint
guarded only by a fixed, publicly known value); on a match it runs one
`main.send_today_message` cycle and answers 200 with the delivered
count. -/
theorem C10_trigger_token (cronToken : Option String) (header : Option String)
    (st : SysState) (admins : List Int) (today : Date) (fails : Int → Bool) :
    ((handle_trigger cronToken header st admins today fails).1 = 401 ↔
      header ≠ some (cronToken.getD ("default-secret"))) ∧
    (header ≠ some (cronToken.getD ("default-secret")) →
      handle_trigger cronToken header st admins today fails =
        (401, "Unauthorized", none)) ∧
    (header = some (cronToken.getD ("default-secret")) →
      handle_trigger cronToken header st admins today fails =
        (200, "✅ Рассылка отправлена " ++
          toString ((mainSendToday st admins today fails).retVal.getD 0) ++
          " получателям", some (mainSendToday st admins today fails))) := by
  by_cases hh : header = some (cronToken.getD ("default-secret"))
  · refine ⟨?_, fun hc => absurd hh hc, fun _ => ?_⟩
    · unfold handle_trigger
      rw [if_pos hh]
      simp [hh]
    · unfold handle_trigger
      rw [if_pos hh]
  · refine ⟨?_, fun _ => ?_, fun hc => absurd hc hh⟩
    · unfold handle_trigger
      rw [if_neg hh]
      simp [hh]
    · unfold handle_trigger
      rw [if_neg hh]

/-- Claim C10 witness: with `CRON_TOKEN` unset, the fixed default token
is accepted and one cycle runs. -/
theorem C10_trigger_token_witness :
    handle_trigger none (some ("default-secret")) exSt [1] ⟨2024, 2, 15⟩
        (fun _ => false) =
      (200, "✅ Рассылка отправлена " ++
        toString ((mainSendToday exSt [1] ⟨2024, 2, 15⟩
          (fun _ => false)).retVal.getD 0) ++
        " получателям",
        some (mainSendToday exSt [1] ⟨2024, 2, 15⟩ (fun _ => false))) :=
  (C10_trigger_token none (some ("default-secret")) exSt [1] ⟨2024, 2, 15⟩
    (fun _ => false)).2.2 rfl

end Kolbaska
